import Mathlib

/-!
Shallow embedding of `Sources/OSActivityShims/include/OSActivityShims.h`
(the etcetera OS-activity shim layer) and verification of its contract.

The header defines six inline C functions, each a one-line forward to a
platform tracing primitive from `os/activity.h`.  The platform primitives
themselves are not part of this repository; they are modelled from the
specification's description of the tracing subsystem (sentinel handles, an
activity registry, a per-context active-scope stack, caller-owned
scope-state buffers).  Pointers are modelled as addresses (`Nat`, with 0
encoding NULL); the pointer type casts performed by the shims become
address-preserving conversions between distinct wrapper types.  The
stateful platform is modelled by explicit state passing; the one misuse the
specification calls undefined behaviour (a mismatched or already-consumed
scope-state buffer handed to scope-leave) is modelled as `Option` failure
of the underlying primitive.
-/

/-- A `const void *` pointer, modelled as an address; 0 encodes NULL. -/
structure ConstVoidPtr where
  addr : Nat
  deriving DecidableEq, Repr

/-- A `void *` pointer, modelled as an address; 0 encodes NULL. -/
structure VoidPtr where
  addr : Nat
  deriving DecidableEq, Repr

/-- A `const uint8_t *` pointer (nullable byte buffer); 0 encodes NULL. -/
structure ConstUInt8Ptr where
  addr : Nat
  deriving DecidableEq, Repr

/-- A `const char *` pointer; 0 encodes NULL. -/
structure ConstCharPtr where
  addr : Nat
  deriving DecidableEq, Repr

/-- An `os_activity_scope_state_t` value: the address of a caller-owned
scope-state buffer. -/
structure ScopeStatePtr where
  addr : Nat
  deriving DecidableEq, Repr

/-- The C cast `(void *)dso` applied by the shims: address-preserving. -/
def castConstVoidPtr (p : ConstVoidPtr) : VoidPtr := ⟨p.addr⟩

/-- The C cast `(const char *)description` applied by the shims:
address-preserving, NULL maps to NULL. -/
def castUInt8PtrToCharPtr (p : ConstUInt8Ptr) : ConstCharPtr := ⟨p.addr⟩

/-- An opaque `os_activity_t` handle: one of the two well-known sentinels,
or an activity minted by the create primitive. -/
inductive ActivityHandle where
  | sentinelNone : ActivityHandle
  | sentinelCurrent : ActivityHandle
  | created (id : Nat) : ActivityHandle
  deriving DecidableEq, Repr

/-- One frame of the execution context's active-scope stack: the activity
that was entered and the scope-state buffer the enter call populated. -/
structure ScopeFrame where
  activity : ActivityHandle
  buf : ScopeStatePtr
  deriving DecidableEq, Repr

/-- An event recorded by the tracing subsystem.  Descriptor/name buffers
are caller-owned, so only their addresses are recorded, never their
contents. -/
inductive TraceEvent where
  | activityCreated (id : Nat) (dsoAddr : Nat) (descriptionAddr : Nat)
      (parent : ActivityHandle) (flags : Nat) : TraceEvent
  | userActionLabel (dsoAddr : Nat) (nameAddr : Nat) : TraceEvent
  deriving DecidableEq, Repr

/-- Modelled from the spec: the state of the operating-system tracing
subsystem visible to one execution context, together with the caller-owned
memory the shim layer may be handed (scope-state buffers and descriptor
byte buffers). -/
structure OSState where
  /-- Fresh ids for activities minted by the create primitive. -/
  nextId : Nat
  /-- The execution context's active-scope stack (head is innermost). -/
  scopeStack : List ScopeFrame
  /-- Contents of caller-owned scope-state buffers, keyed by address:
  `some a` once populated by scope-enter with activity `a`, cleared by the
  matching scope-leave. -/
  scopeBuffers : Nat → Option ActivityHandle
  /-- Caller-owned descriptor/name byte buffers, keyed by address. -/
  byteMem : Nat → Nat
  /-- Events recorded by the tracing subsystem, newest first. -/
  trace : List TraceEvent

/-- The empty tracing state: no scopes entered, no buffers populated. -/
def initialOSState : OSState :=
  { nextId := 0
    scopeStack := []
    scopeBuffers := fun _ => Option.none
    byteMem := fun _ => 0
    trace := [] }

/-- The functional components of a state, excluding the caller-owned byte
memory (used to express that an operation does not depend on, copy, or
retain descriptor/name buffer contents). -/
def OSState.sansMem (s : OSState) :
    Nat × List ScopeFrame × (Nat → Option ActivityHandle) × List TraceEvent :=
  (s.nextId, s.scopeStack, s.scopeBuffers, s.trace)

/-- Modelled from the spec: the platform's documented "no activity"
sentinel handle, the expansion of the `OS_ACTIVITY_NONE` macro. -/
def OS_ACTIVITY_NONE : ActivityHandle := ActivityHandle.sentinelNone

/-- Modelled from the spec: the platform's "current activity" sentinel
handle, the expansion of the `OS_ACTIVITY_CURRENT` macro (a fixed sentinel
constant). -/
def OS_ACTIVITY_CURRENT : ActivityHandle := ActivityHandle.sentinelCurrent

/-- The activity that is active on the execution context: the innermost
entered scope's activity, or the "none" sentinel when no scope is open. -/
def activeActivity (s : OSState) : ActivityHandle :=
  match s.scopeStack with
  | [] => OS_ACTIVITY_NONE
  | f :: _ => f.activity

/-- Modelled from the spec: the platform primitive `_os_activity_create`
(the internal spelling of `os_activity_create`, which is a preprocessor
macro).  Mints a fresh activity handle and registers the new activity —
its parent relationship and flags — with the tracing subsystem.  The
description buffer is caller-owned: only its address is recorded. -/
def _os_activity_create (dso : VoidPtr) (description : ConstCharPtr)
    (parent : ActivityHandle) (flags : Nat) (s : OSState) :
    ActivityHandle × OSState :=
  (ActivityHandle.created s.nextId,
   { s with
     nextId := s.nextId + 1
     trace := TraceEvent.activityCreated s.nextId dso.addr description.addr
                parent flags :: s.trace })

/-- Modelled from the spec: the platform primitive
`_os_activity_label_useraction` (the internal spelling of the
`os_activity_label_useraction` macro).  Annotates the current trace stream
with a user-action label; the name buffer is caller-owned and may be NULL,
so only its address is recorded. -/
def _os_activity_label_useraction (dso : VoidPtr) (name : ConstCharPtr)
    (s : OSState) : OSState :=
  { s with trace := TraceEvent.userActionLabel dso.addr name.addr :: s.trace }

/-- Modelled from the spec: the platform primitive
`os_activity_scope_enter`.  Pushes the activity onto the execution
context's active-scope stack and populates the caller-owned scope-state
buffer for the later unwind. -/
def os_activity_scope_enter (activity : ActivityHandle)
    (state : ScopeStatePtr) (s : OSState) : OSState :=
  { s with
    scopeStack := ScopeFrame.mk activity state :: s.scopeStack
    scopeBuffers := fun p =>
      if p = state.addr then some activity else s.scopeBuffers p }

/-- Modelled from the spec: the platform primitive
`os_activity_scope_leave`.  Pops the innermost scope from the active-scope
stack, restoring the previous active activity, and consumes the scope-state
buffer.  Passing a buffer that is not the one populated by the matching
(innermost) scope-enter, or one already consumed, is undefined behaviour of
the tracing subsystem; it is modelled as failure (`none`). -/
def os_activity_scope_leave (state : ScopeStatePtr) (s : OSState) :
    Option OSState :=
  match s.scopeStack with
  | [] => none
  | f :: rest =>
    if f.buf = state ∧ s.scopeBuffers state.addr = some f.activity then
      some { s with
             scopeStack := rest
             scopeBuffers := fun p =>
               if p = state.addr then none else s.scopeBuffers p }
    else none

/-- Shim from the source header: returns `OS_ACTIVITY_NONE`.  The C body is
a single `return` of the macro expansion; the tracing state is threaded
unchanged. -/
def _etcetera_os_activity_none (s : OSState) : ActivityHandle × OSState :=
  (OS_ACTIVITY_NONE, s)

/-- Shim from the source header: returns `OS_ACTIVITY_CURRENT`.  The C body
is a single `return` of the macro expansion; the tracing state is threaded
unchanged. -/
def _etcetera_os_activity_current (s : OSState) : ActivityHandle × OSState :=
  (OS_ACTIVITY_CURRENT, s)

/-- Shim from the source header: casts `dso` to `void *` and `description`
to `const char *`, then forwards to `_os_activity_create`, returning its
result unchanged. -/
def _etcetera_os_activity_create (dso : ConstVoidPtr)
    (description : ConstUInt8Ptr) (parent : ActivityHandle) (flags : Nat)
    (s : OSState) : ActivityHandle × OSState :=
  _os_activity_create (castConstVoidPtr dso)
    (castUInt8PtrToCharPtr description) parent flags s

/-- Shim from the source header: casts `dso` to `void *` and `name` to
`const char *`, then forwards to `_os_activity_label_useraction`. -/
def _etcetera_os_activity_label_useraction (dso : ConstVoidPtr)
    (name : ConstUInt8Ptr) (s : OSState) : OSState :=
  _os_activity_label_useraction (castConstVoidPtr dso)
    (castUInt8PtrToCharPtr name) s

/-- Shim from the source header: forwards to `os_activity_scope_enter`
unchanged. -/
def _etcetera_os_activity_scope_enter (activity : ActivityHandle)
    (state : ScopeStatePtr) (s : OSState) : OSState :=
  os_activity_scope_enter activity state s

/-- Shim from the source header: forwards to `os_activity_scope_leave`
unchanged. -/
def _etcetera_os_activity_scope_leave (state : ScopeStatePtr)
    (s : OSState) : Option OSState :=
  os_activity_scope_leave state s

/-- Claim C1: each of the shim operations (get-none-activity,
get-current-activity, create-activity, label-useraction, scope-enter,
scope-leave) is extensionally equal to the underlying platform primitive
applied to its type-cast arguments: it performs only pointer/descriptor
type conversions, forwards immediately, keeps no internal state of its own
(the state it returns is exactly the primitive's), and returns the
primitive's return value (if any) unchanged. -/
theorem shim_forwarding_equivalence :
    (∀ s : OSState, _etcetera_os_activity_none s = (OS_ACTIVITY_NONE, s)) ∧
    (∀ s : OSState,
      _etcetera_os_activity_current s = (OS_ACTIVITY_CURRENT, s)) ∧
    (∀ (dso : ConstVoidPtr) (d : ConstUInt8Ptr) (parent : ActivityHandle)
        (flags : Nat) (s : OSState),
      _etcetera_os_activity_create dso d parent flags s =
        _os_activity_create (castConstVoidPtr dso)
          (castUInt8PtrToCharPtr d) parent flags s) ∧
    (∀ (dso : ConstVoidPtr) (n : ConstUInt8Ptr) (s : OSState),
      _etcetera_os_activity_label_useraction dso n s =
        _os_activity_label_useraction (castConstVoidPtr dso)
          (castUInt8PtrToCharPtr n) s) ∧
    (∀ (a : ActivityHandle) (b : ScopeStatePtr) (s : OSState),
      _etcetera_os_activity_scope_enter a b s =
        os_activity_scope_enter a b s) ∧
    (∀ (b : ScopeStatePtr) (s : OSState),
      _etcetera_os_activity_scope_leave b s = os_activity_scope_leave b s) :=
  ⟨fun _ => rfl, fun _ => rfl, fun _ _ _ _ _ => rfl, fun _ _ _ => rfl,
   fun _ _ _ => rfl, fun _ _ => rfl⟩

/-- Claim C3: every call to get-none-activity returns the platform's
documented "no activity" sentinel handle; any two calls, in any states,
return equal values; and a call is side-effect-free (the state after the
call equals the state before). -/
theorem none_sentinel_constant_pure :
    ∀ s₁ s₂ : OSState,
      (_etcetera_os_activity_none s₁).1 = OS_ACTIVITY_NONE ∧
      (_etcetera_os_activity_none s₁).1 = (_etcetera_os_activity_none s₂).1 ∧
      (_etcetera_os_activity_none s₁).2 = s₁ :=
  fun _ _ => ⟨rfl, rfl, rfl⟩

/-- Claim C9: the value returned by get-current-activity is the fixed
sentinel constant `OS_ACTIVITY_CURRENT` and is identical across any two
calls regardless of program state — in particular it is unchanged even by
intervening scope-enter or scope-leave calls. -/
theorem current_sentinel_constant_regardless_of_state :
    (∀ s : OSState,
      (_etcetera_os_activity_current s).1 = OS_ACTIVITY_CURRENT) ∧
    (∀ s₁ s₂ : OSState,
      (_etcetera_os_activity_current s₁).1 =
        (_etcetera_os_activity_current s₂).1) ∧
    (∀ (s : OSState) (a : ActivityHandle) (b : ScopeStatePtr),
      (_etcetera_os_activity_current
          (_etcetera_os_activity_scope_enter a b s)).1 =
        (_etcetera_os_activity_current s).1) ∧
    (∀ (s : OSState) (b : ScopeStatePtr),
      (_etcetera_os_activity_current
          ((_etcetera_os_activity_scope_leave b s).getD s)).1 =
        (_etcetera_os_activity_current s).1) :=
  ⟨fun _ => rfl, fun _ _ => rfl, fun _ _ _ => rfl, fun _ _ => rfl⟩

/-- Claim C6: no error condition is signalled by the shim layer: each
operation performs no validation and synthesizes no status or result beyond
verbatim pass-through of the underlying primitive's result (the
get-none/get-current/label/enter shims always complete, leaving the state
exactly as the primitive does, and the scope-leave shim fails exactly when
the underlying primitive does — no error branch of the layer's own is
reachable). -/
theorem no_error_synthesized_by_layer :
    (∀ (b : ScopeStatePtr) (s : OSState),
      (_etcetera_os_activity_scope_leave b s).isNone =
        (os_activity_scope_leave b s).isNone) ∧
    (∀ (dso : ConstVoidPtr) (d : ConstUInt8Ptr) (parent : ActivityHandle)
        (flags : Nat) (s : OSState),
      (_etcetera_os_activity_create dso d parent flags s).1 =
        (_os_activity_create ⟨dso.addr⟩ ⟨d.addr⟩ parent flags s).1 ∧
      (_etcetera_os_activity_create dso d parent flags s).2 =
        (_os_activity_create ⟨dso.addr⟩ ⟨d.addr⟩ parent flags s).2) ∧
    (∀ (dso : ConstVoidPtr) (n : ConstUInt8Ptr) (s : OSState),
      _etcetera_os_activity_label_useraction dso n s =
        _os_activity_label_useraction ⟨dso.addr⟩ ⟨n.addr⟩ s) ∧
    (∀ (a : ActivityHandle) (b : ScopeStatePtr) (s : OSState),
      _etcetera_os_activity_scope_enter a b s =
        os_activity_scope_enter a b s) ∧
    (∀ s : OSState,
      (_etcetera_os_activity_none s).2 = s ∧
      (_etcetera_os_activity_current s).2 = s) :=
  ⟨fun _ _ => rfl, fun _ _ _ _ _ => ⟨rfl, rfl⟩, fun _ _ _ => rfl,
   fun _ _ _ => rfl, fun _ => ⟨rfl, rfl⟩⟩

/-- A well-nested program of scope-enter/scope-leave pairs:
`node a b inner rest` enters activity `a` with buffer `b`, runs `inner`,
leaves with the exact buffer `b`, then runs `rest`. -/
inductive NestedTrace where
  | done : NestedTrace
  | node (a : ActivityHandle) (b : ScopeStatePtr)
      (inner rest : NestedTrace) : NestedTrace

/-- The scope-state buffer addresses a nested program uses. -/
def NestedTrace.bufs : NestedTrace → List Nat
  | .done => []
  | .node _ b inner rest => b.addr :: (inner.bufs ++ rest.bufs)

/-- Run a well-nested program through the shim layer; `none` when some
scope-leave hits the tracing subsystem's undefined behaviour. -/
def runNested : NestedTrace → OSState → Option OSState
  | .done, s => some s
  | .node a b inner rest, s =>
    match runNested inner (_etcetera_os_activity_scope_enter a b s) with
    | none => none
    | some s₂ =>
      match _etcetera_os_activity_scope_leave b s₂ with
      | none => none
      | some s₃ => runNested rest s₃

/-- Unfolding lemma: scope-leave succeeds when handed the exact buffer that
the innermost (top-of-stack) scope-enter populated. -/
theorem scope_leave_top (b : ScopeStatePtr) (s : OSState)
    (f : ScopeFrame) (rest : List ScopeFrame)
    (hstack : s.scopeStack = f :: rest) (hbuf : f.buf = b)
    (hcontent : s.scopeBuffers b.addr = some f.activity) :
    _etcetera_os_activity_scope_leave b s =
      some { s with
             scopeStack := rest
             scopeBuffers := fun p =>
               if p = b.addr then none else s.scopeBuffers p } := by
  unfold _etcetera_os_activity_scope_leave os_activity_scope_leave
  rw [hstack]
  simp [hbuf, hcontent]

/-- A successful run of a well-nested program whose buffers are distinct
restores the scope stack and touches no scope-state buffer outside the
program's own. -/
theorem runNested_ok (t : NestedTrace) : ∀ s : OSState, t.bufs.Nodup →
    ∃ s', runNested t s = some s' ∧ s'.scopeStack = s.scopeStack ∧
      ∀ p : Nat, p ∉ t.bufs → s'.scopeBuffers p = s.scopeBuffers p := by
  induction t with
  | done =>
    intro s _
    exact ⟨s, rfl, rfl, fun _ _ => rfl⟩
  | node a b inner rest ihInner ihRest =>
    intro s hnd
    rw [NestedTrace.bufs, List.nodup_cons] at hnd
    obtain ⟨hb, htail⟩ := hnd
    have hbInner : b.addr ∉ inner.bufs := fun h =>
      hb (List.mem_append.mpr (Or.inl h))
    have hbRest : b.addr ∉ rest.bufs := fun h =>
      hb (List.mem_append.mpr (Or.inr h))
    obtain ⟨s₂, h2run, h2stack, h2buf⟩ :=
      ihInner (_etcetera_os_activity_scope_enter a b s) htail.of_append_left
    have hS2stack : s₂.scopeStack = ScopeFrame.mk a b :: s.scopeStack := by
      rw [h2stack]; rfl
    have hS2b : s₂.scopeBuffers b.addr = some a := by
      rw [h2buf b.addr hbInner]
      simp [_etcetera_os_activity_scope_enter, os_activity_scope_enter]
    have hleave := scope_leave_top b s₂ (ScopeFrame.mk a b) s.scopeStack
      hS2stack rfl hS2b
    obtain ⟨s₄, h4run, h4stack, h4buf⟩ :=
      ihRest { s₂ with
               scopeStack := s.scopeStack
               scopeBuffers := fun p =>
                 if p = b.addr then none else s₂.scopeBuffers p }
        htail.of_append_right
    refine ⟨s₄, ?_, ?_, ?_⟩
    · simp only [runNested, h2run, hleave, h4run]
    · rw [h4stack]
    · intro p hp
      rw [NestedTrace.bufs] at hp
      have hpb : p ≠ b.addr := fun h => hp (by rw [h]; exact List.mem_cons_self _ _)
      have hpInner : p ∉ inner.bufs := fun h =>
        hp (List.mem_cons_of_mem _ (List.mem_append.mpr (Or.inl h)))
      have hpRest : p ∉ rest.bufs := fun h =>
        hp (List.mem_cons_of_mem _ (List.mem_append.mpr (Or.inr h)))
      rw [h4buf p hpRest]
      show (if p = b.addr then none else s₂.scopeBuffers p) = s.scopeBuffers p
      rw [if_neg hpb, h2buf p hpInner]
      show (if p = b.addr then some a else s.scopeBuffers p) = s.scopeBuffers p
      rw [if_neg hpb]

/-- Changing only the scope stack of a state does not change which activity
`activeActivity` reports when the stacks agree. -/
theorem activeActivity_congr {s₁ s₂ : OSState}
    (h : s₁.scopeStack = s₂.scopeStack) :
    activeActivity s₁ = activeActivity s₂ := by
  unfold activeActivity
  rw [h]

/-- Claim C2: for every activity handle and every caller-owned scope-state
buffer, scope-enter with that handle and buffer followed immediately by
scope-leave with that exact buffer succeeds and restores the active
activity (and the whole scope stack) that was current before the enter;
every well-nested sequence of enter/leave pairs with distinct buffers on
one execution context unwinds successfully in last-in-first-out order,
restoring the pre-sequence active activity; and leaving an outer scope's
buffer while an inner scope is still open is rejected by the tracing
subsystem (strict LIFO discipline). -/
theorem scope_roundtrip_and_lifo :
    (∀ (s : OSState) (a : ActivityHandle) (buf : ScopeStatePtr),
      (_etcetera_os_activity_scope_leave buf
          (_etcetera_os_activity_scope_enter a buf s)).isSome = true ∧
      ((_etcetera_os_activity_scope_leave buf
          (_etcetera_os_activity_scope_enter a buf s)).getD s).scopeStack =
        s.scopeStack ∧
      activeActivity ((_etcetera_os_activity_scope_leave buf
          (_etcetera_os_activity_scope_enter a buf s)).getD s) =
        activeActivity s) ∧
    (∀ (t : NestedTrace) (s : OSState), t.bufs.Nodup →
      (runNested t s).isSome = true ∧
      ((runNested t s).getD s).scopeStack = s.scopeStack ∧
      activeActivity ((runNested t s).getD s) = activeActivity s) ∧
    (∀ (s : OSState) (a₁ a₂ : ActivityHandle) (b₁ b₂ : ScopeStatePtr),
      b₁ ≠ b₂ →
      _etcetera_os_activity_scope_leave b₁
        (_etcetera_os_activity_scope_enter a₂ b₂
          (_etcetera_os_activity_scope_enter a₁ b₁ s)) = none) := by
  refine ⟨?_, ?_, ?_⟩
  · intro s a buf
    have hcontent :
        (_etcetera_os_activity_scope_enter a buf s).scopeBuffers buf.addr =
          some a := by
      simp [_etcetera_os_activity_scope_enter, os_activity_scope_enter]
    have hleave := scope_leave_top buf (_etcetera_os_activity_scope_enter a buf s)
      (ScopeFrame.mk a buf) s.scopeStack rfl rfl hcontent
    rw [hleave]
    exact ⟨rfl, rfl, activeActivity_congr rfl⟩
  · intro t s hnd
    obtain ⟨s', hrun, hstk, _⟩ := runNested_ok t s hnd
    rw [hrun]
    exact ⟨rfl, hstk, activeActivity_congr hstk⟩
  · intro s a₁ a₂ b₁ b₂ h
    have hne : (ScopeFrame.mk a₂ b₂).buf ≠ b₁ := fun hc => h hc.symm
    simp [_etcetera_os_activity_scope_leave, os_activity_scope_leave,
          _etcetera_os_activity_scope_enter, os_activity_scope_enter, hne]

/-- A two-deep well-nested program used as a concrete instance: enter a
created activity with buffer 1, inside it enter the none sentinel with
buffer 2, then unwind both in LIFO order. -/
def exNestedTrace : NestedTrace :=
  NestedTrace.node (ActivityHandle.created 7) ⟨1⟩
    (NestedTrace.node OS_ACTIVITY_NONE ⟨2⟩ NestedTrace.done NestedTrace.done)
    NestedTrace.done

/-- Witness for C2: the two-deep nested program has distinct buffers, runs
to completion, and restores the empty scope stack and the pre-run active
activity of the initial state. -/
theorem scope_roundtrip_and_lifo_witness :
    exNestedTrace.bufs.Nodup ∧
    (runNested exNestedTrace initialOSState).isSome = true ∧
    ((runNested exNestedTrace initialOSState).getD
        initialOSState).scopeStack = initialOSState.scopeStack ∧
    activeActivity ((runNested exNestedTrace initialOSState).getD
        initialOSState) = activeActivity initialOSState :=
  ⟨by decide,
   scope_roundtrip_and_lifo.2.1 exNestedTrace initialOSState (by decide)⟩

/-- One shim call that is not a scope-enter: the relation holds between the
states before and after the call (get-none, get-current, create,
label-useraction, or a successful scope-leave). -/
inductive NoEnterStep : OSState → OSState → Prop where
  | getNone (s : OSState) : NoEnterStep s (_etcetera_os_activity_none s).2
  | getCurrent (s : OSState) :
      NoEnterStep s (_etcetera_os_activity_current s).2
  | create (dso : ConstVoidPtr) (d : ConstUInt8Ptr) (parent : ActivityHandle)
      (flags : Nat) (s : OSState) :
      NoEnterStep s (_etcetera_os_activity_create dso d parent flags s).2
  | label (dso : ConstVoidPtr) (n : ConstUInt8Ptr) (s : OSState) :
      NoEnterStep s (_etcetera_os_activity_label_useraction dso n s)
  | leave (b : ScopeStatePtr) (s s' : OSState) :
      _etcetera_os_activity_scope_leave b s = some s' → NoEnterStep s s'

/-- Claim C4: get-current-activity returns the sentinel "current activity"
handle, and any two calls made in the same execution context with no
intervening scope-enter between them (the second state reached from the
first by shim calls none of which is a scope-enter) return equal
handles. -/
theorem current_stable_without_intervening_enter (s s' : OSState)
    ( _h : Relation.ReflTransGen NoEnterStep s s') :
    (_etcetera_os_activity_current s).1 = OS_ACTIVITY_CURRENT ∧
    (_etcetera_os_activity_current s).1 =
      (_etcetera_os_activity_current s').1 :=
  ⟨rfl, rfl⟩

/-- Witness for C4: a concrete pair of calls separated by one
label-useraction step (no scope-enter) returns equal handles. -/
theorem current_stable_without_intervening_enter_witness :
    (_etcetera_os_activity_current initialOSState).1 = OS_ACTIVITY_CURRENT ∧
    (_etcetera_os_activity_current initialOSState).1 =
      (_etcetera_os_activity_current
        (_etcetera_os_activity_label_useraction ⟨5⟩ ⟨0⟩ initialOSState)).1 :=
  current_stable_without_intervening_enter initialOSState
    (_etcetera_os_activity_label_useraction ⟨5⟩ ⟨0⟩ initialOSState)
    (Relation.ReflTransGen.single (NoEnterStep.label ⟨5⟩ ⟨0⟩ initialOSState))

/-- Erase the caller-owned description address recorded by a create event,
to compare two runs of create-activity up to the recorded label. -/
def TraceEvent.eraseDescription : TraceEvent → TraceEvent
  | .activityCreated i dso _ parent flags =>
      .activityCreated i dso 0 parent flags
  | .userActionLabel dso nameAddr => .userActionLabel dso nameAddr

/-- Claim C5: for every non-null dso token and every parent handle,
create-activity(dso, null, parent, 0) does not fail and returns a handle
distinct from both the "none" and "current" sentinels; and for every dso,
parent, and flags, two runs of create-activity that differ only in the
description argument (e.g. null versus a non-null label) return the same
handle and leave identical states apart from the description address
recorded in the trace event. -/
theorem create_no_fail_description_independent :
    (∀ (dso : ConstVoidPtr) (parent : ActivityHandle) (s : OSState),
      dso.addr ≠ 0 →
      (_etcetera_os_activity_create dso ⟨0⟩ parent 0 s).1 ≠
        OS_ACTIVITY_NONE ∧
      (_etcetera_os_activity_create dso ⟨0⟩ parent 0 s).1 ≠
        OS_ACTIVITY_CURRENT) ∧
    (∀ (dso : ConstVoidPtr) (d₁ d₂ : ConstUInt8Ptr)
        (parent : ActivityHandle) (flags : Nat) (s : OSState),
      (_etcetera_os_activity_create dso d₁ parent flags s).1 =
        (_etcetera_os_activity_create dso d₂ parent flags s).1 ∧
      ((_etcetera_os_activity_create dso d₁ parent flags s).2).nextId =
        ((_etcetera_os_activity_create dso d₂ parent flags s).2).nextId ∧
      ((_etcetera_os_activity_create dso d₁ parent flags s).2).scopeStack =
        ((_etcetera_os_activity_create dso d₂ parent flags s).2).scopeStack ∧
      ((_etcetera_os_activity_create dso d₁ parent flags s).2).scopeBuffers =
        ((_etcetera_os_activity_create dso d₂ parent flags s).2).scopeBuffers ∧
      ((_etcetera_os_activity_create dso d₁ parent flags s).2).byteMem =
        ((_etcetera_os_activity_create dso d₂ parent flags s).2).byteMem ∧
      (((_etcetera_os_activity_create dso d₁ parent flags s).2).trace).map
          TraceEvent.eraseDescription =
        (((_etcetera_os_activity_create dso d₂ parent flags s).2).trace).map
          TraceEvent.eraseDescription) :=
  ⟨fun _ _ _ _ =>
    ⟨fun hc => ActivityHandle.noConfusion hc,
     fun hc => ActivityHandle.noConfusion hc⟩,
   fun _ _ _ _ _ _ => ⟨rfl, rfl, rfl, rfl, rfl, rfl⟩⟩

/-- Witness for C5: with a concrete non-null dso, a null description, the
none-sentinel parent and zero flags, create-activity returns a handle that
is neither sentinel. -/
theorem create_no_fail_description_independent_witness :
    (ConstVoidPtr.mk 1).addr ≠ 0 ∧
    (_etcetera_os_activity_create ⟨1⟩ ⟨0⟩ OS_ACTIVITY_NONE 0
        initialOSState).1 ≠ OS_ACTIVITY_NONE ∧
    (_etcetera_os_activity_create ⟨1⟩ ⟨0⟩ OS_ACTIVITY_NONE 0
        initialOSState).1 ≠ OS_ACTIVITY_CURRENT :=
  ⟨by decide,
   (create_no_fail_description_independent.1 ⟨1⟩ OS_ACTIVITY_NONE
      initialOSState (by decide)).1,
   (create_no_fail_description_independent.1 ⟨1⟩ OS_ACTIVITY_NONE
      initialOSState (by decide)).2⟩

/-- Scope-leave, whether it succeeds or hits the modelled undefined
behaviour, never touches the caller-owned byte memory. -/
theorem scope_leave_byteMem (b : ScopeStatePtr) (s : OSState) :
    ((os_activity_scope_leave b s).getD s).byteMem = s.byteMem := by
  unfold os_activity_scope_leave
  split
  · rfl
  · split
    · rfl
    · rfl

/-- Claim C7: no shim operation mutates or frees a caller-owned
descriptor/name byte buffer (the byte memory after every call equals the
byte memory before, including a failing scope-leave), and no operation
copies or retains buffer contents: the returned value and every state
component other than the pass-through byte memory are unchanged when the
byte memory is replaced arbitrarily. -/
theorem caller_buffers_untouched :
    (∀ (dso : ConstVoidPtr) (d : ConstUInt8Ptr) (parent : ActivityHandle)
        (flags : Nat) (s : OSState),
      ((_etcetera_os_activity_create dso d parent flags s).2).byteMem =
        s.byteMem) ∧
    (∀ (dso : ConstVoidPtr) (n : ConstUInt8Ptr) (s : OSState),
      (_etcetera_os_activity_label_useraction dso n s).byteMem =
        s.byteMem) ∧
    (∀ (a : ActivityHandle) (b : ScopeStatePtr) (s : OSState),
      (_etcetera_os_activity_scope_enter a b s).byteMem = s.byteMem) ∧
    (∀ (b : ScopeStatePtr) (s : OSState),
      ((_etcetera_os_activity_scope_leave b s).getD s).byteMem =
        s.byteMem) ∧
    (∀ s : OSState, ((_etcetera_os_activity_none s).2).byteMem = s.byteMem) ∧
    (∀ s : OSState,
      ((_etcetera_os_activity_current s).2).byteMem = s.byteMem) ∧
    (∀ (dso : ConstVoidPtr) (d : ConstUInt8Ptr) (parent : ActivityHandle)
        (flags : Nat) (s : OSState) (m : Nat → Nat),
      (_etcetera_os_activity_create dso d parent flags
          { s with byteMem := m }).1 =
        (_etcetera_os_activity_create dso d parent flags s).1 ∧
      ((_etcetera_os_activity_create dso d parent flags
          { s with byteMem := m }).2).sansMem =
        ((_etcetera_os_activity_create dso d parent flags s).2).sansMem) ∧
    (∀ (dso : ConstVoidPtr) (n : ConstUInt8Ptr) (s : OSState)
        (m : Nat → Nat),
      (_etcetera_os_activity_label_useraction dso n
          { s with byteMem := m }).sansMem =
        (_etcetera_os_activity_label_useraction dso n s).sansMem) :=
  ⟨fun _ _ _ _ _ => rfl, fun _ _ _ => rfl, fun _ _ _ => rfl,
   fun b s => scope_leave_byteMem b s, fun _ => rfl, fun _ => rfl,
   fun _ _ _ _ _ _ => ⟨rfl, rfl⟩, fun _ _ _ _ => rfl⟩

/-- Claim C8: for every non-null dso token, label-useraction with a null
name pointer completes normally, annotating the trace with a user-action
label carrying the null name. -/
theorem label_useraction_null_name_completes (dso : ConstVoidPtr)
    (s : OSState) ( _h : dso.addr ≠ 0) :
    _etcetera_os_activity_label_useraction dso ⟨0⟩ s =
      { s with trace := TraceEvent.userActionLabel dso.addr 0 :: s.trace } :=
  rfl

/-- Witness for C8: label-useraction with a concrete non-null dso and a
null name completes on the initial state. -/
theorem label_useraction_null_name_completes_witness :
    (ConstVoidPtr.mk 9).addr ≠ 0 ∧
    _etcetera_os_activity_label_useraction ⟨9⟩ ⟨0⟩ initialOSState =
      { initialOSState with
        trace := TraceEvent.userActionLabel 9 0 :: initialOSState.trace } :=
  ⟨by decide,
   label_useraction_null_name_completes ⟨9⟩ initialOSState (by decide)⟩

/-- Claim C10: create-activity and label-useraction pass the
description/name pointer to the underlying primitive address-unchanged
under the pure `uint8_t*` to `char*` reinterpretation: the cast preserves
the address, null is forwarded as null (never substituted), the address
recorded by the tracing subsystem is exactly the caller's, and the shim
never dereferences the buffer (its returned handle and emitted trace do
not depend on the byte memory's contents). -/
theorem description_pointer_forwarded_address_unchanged :
    (∀ p : ConstUInt8Ptr, (castUInt8PtrToCharPtr p).addr = p.addr) ∧
    (castUInt8PtrToCharPtr ⟨0⟩ = ConstCharPtr.mk 0) ∧
    (∀ (dso : ConstVoidPtr) (d : ConstUInt8Ptr) (parent : ActivityHandle)
        (flags : Nat) (s : OSState),
      _etcetera_os_activity_create dso d parent flags s =
        _os_activity_create (castConstVoidPtr dso) (ConstCharPtr.mk d.addr)
          parent flags s ∧
      ((_etcetera_os_activity_create dso d parent flags s).2).trace =
        TraceEvent.activityCreated s.nextId dso.addr d.addr parent flags ::
          s.trace) ∧
    (∀ (dso : ConstVoidPtr) (n : ConstUInt8Ptr) (s : OSState),
      _etcetera_os_activity_label_useraction dso n s =
        _os_activity_label_useraction (castConstVoidPtr dso)
          (ConstCharPtr.mk n.addr) s ∧
      (_etcetera_os_activity_label_useraction dso n s).trace =
        TraceEvent.userActionLabel dso.addr n.addr :: s.trace) ∧
    (∀ (dso : ConstVoidPtr) (d : ConstUInt8Ptr) (parent : ActivityHandle)
        (flags : Nat) (s : OSState) (m : Nat → Nat),
      (_etcetera_os_activity_create dso d parent flags
          { s with byteMem := m }).1 =
        (_etcetera_os_activity_create dso d parent flags s).1) ∧
    (∀ (dso : ConstVoidPtr) (n : ConstUInt8Ptr) (s : OSState)
        (m : Nat → Nat),
      (_etcetera_os_activity_label_useraction dso n
          { s with byteMem := m }).trace =
        (_etcetera_os_activity_label_useraction dso n s).trace) :=
  ⟨fun _ => rfl, rfl, fun _ _ _ _ _ => ⟨rfl, rfl⟩,
   fun _ _ _ => ⟨rfl, rfl⟩, fun _ _ _ _ _ _ => rfl, fun _ _ _ _ => rfl⟩
